import Mathlib

set_option autoImplicit false

namespace PanasonicEolia

/-! Shallow embedding of src/panasoniceolia/session.py: the session operations
(login, get_devices, get_device, dump, set_device), the parameter codec
(_read_parameters and the payload construction in set_device), and the error
taxonomy (Error, RequestError, LoginError, ResponseError).  Network transport
is modelled as an explicit outcome value; response bodies are modelled as
either text that parses as JSON or text that does not. -/

/-- JSON values, the wire data model of the cloud API.  Numbers are modelled
as integers: every numeric value the claims touch is integral and the code
only passes numbers through without arithmetic. -/
inductive Json where
  | null
  | bool (b : Bool)
  | num (n : Int)
  | str (s : String)
  | arr (elems : List Json)
  | obj (fields : List (String × Json))

/-- Association-list lookup with first-match semantics, modelling Python dict
indexing d[k] and membership k in d.  Python dicts have unique keys, so
first-match lookup coincides with dict lookup. -/
def dictGet {α : Type} (d : List (String × α)) (k : String) : Option α :=
  match d with
  | [] => none
  | (k2, v) :: rest => if k2 = k then some v else dictGet rest k

/-- Python dict assignment d[k] = v: overwrite in place when the key exists
(keeping its insertion position), append otherwise. -/
def dictSet {α : Type} (d : List (String × α)) (k : String) (v : α) :
    List (String × α) :=
  match d with
  | [] => [(k, v)]
  | (k2, v2) :: rest => if k2 = k then (k, v) :: rest else (k2, v2) :: dictSet rest k v

/-- A HTTP response body: either text that json.loads parses to a JSON value,
or text that is not valid JSON. -/
inductive Body where
  | json (j : Json)
  | raw (s : String)

/-- Exceptions the embedded code can raise.  The first four constructors are
the taxonomy declared in session.py; the rest are the Python runtime errors
the code can let escape (json.loads failure, enum-lookup ValueError, dict
KeyError, TypeError on a value of an unexpected shape). -/
inductive PyError where
  | responseError (status_code : Nat) (text : Json)
  | requestError
  | loginError
  | error
  | jsonDecodeError
  | valueError (wire_key : String)
  | keyError (key : String)
  | typeError

/-- Test for the ResponseError constructor of the taxonomy. -/
def isResponseError : PyError → Bool
  | PyError.responseError _ _ => true
  | _ => false

/-- Python json.loads on a response body: the parsed value when the body is
valid JSON, a decode error otherwise. -/
def json_loads (b : Body) : Except PyError Json :=
  match b with
  | Body.json j => Except.ok j
  | Body.raw _ => Except.error PyError.jsonDecodeError

/-- A constructed ResponseError as in session.py lines 32-41: it stores the
status code and self.text = json.loads(text). -/
structure ResponseError where
  status_code : Nat
  text : Json

/-- Construction of ResponseError(status_code, text): the constructor body
runs json.loads on the response text, so construction itself raises a JSON
decode error when the body is not valid JSON. -/
def ResponseError.construct (status_code : Nat) (body : Body) :
    Except PyError ResponseError :=
  match json_loads body with
  | Except.ok j => Except.ok { status_code := status_code, text := j }
  | Except.error e => Except.error e

/-- The exception that actually propagates when the code executes raise
ResponseError(status_code, response.text): the ResponseError itself when the
body parses as JSON, otherwise the decode error raised inside the
constructor. -/
def raiseResponseError (status_code : Nat) (body : Body) : PyError :=
  match ResponseError.construct status_code body with
  | Except.ok r => PyError.responseError r.status_code r.text
  | Except.error e => e

/-- Outcome of one HTTP round trip as seen by session.py: either the requests
library raised a RequestException (failure) or a response object with a
status code and a body came back. -/
inductive TransportResult where
  | failure
  | success (status_code : Nat) (body : Body)

/-- Modelled from the spec: the module constants.py defining the Power enum is
not under src (session.py only calls it); the spec fixes the member set to
ON and OFF, each carrying a distinct small wire code. -/
inductive Power where
  | ON
  | OFF
  deriving DecidableEq

/-- Modelled from the spec: the wire code of a Power member (the Python enum
member's value attribute); codes are distinct per member. -/
def Power.value : Power → Int
  | Power.ON => 1
  | Power.OFF => 0

/-- Wire-side JSON encoding of a Power member, as placed in payloads and read
from status documents. -/
def Power.wire (p : Power) : Json := Json.num p.value

/-- Modelled from the spec: Python enum lookup Power(code) from constants.py —
the member whose wire code equals the argument, none when no member
matches (the Python call raises ValueError there). -/
def Power.fromWire (j : Json) : Option Power :=
  match j with
  | Json.num n => if n = 1 then some Power.ON else if n = 0 then some Power.OFF else none
  | _ => none

/-- Modelled from the spec: the OperationMode enum of constants.py is not
under src; the spec names the operation modes AUTO, COOL, HEAT, DRY, FAN,
each with a distinct wire code. -/
inductive OperationMode where
  | AUTO
  | COOL
  | HEAT
  | DRY
  | FAN
  deriving DecidableEq

/-- Modelled from the spec: the wire code of an OperationMode member. -/
def OperationMode.value : OperationMode → Int
  | OperationMode.AUTO => 0
  | OperationMode.DRY => 1
  | OperationMode.COOL => 2
  | OperationMode.HEAT => 3
  | OperationMode.FAN => 4

/-- Wire-side JSON encoding of an OperationMode member. -/
def OperationMode.wire (m : OperationMode) : Json := Json.num m.value

/-- Modelled from the spec: Python enum lookup OperationMode(code). -/
def OperationMode.fromWire (j : Json) : Option OperationMode :=
  match j with
  | Json.num n =>
    if n = 0 then some OperationMode.AUTO
    else if n = 1 then some OperationMode.DRY
    else if n = 2 then some OperationMode.COOL
    else if n = 3 then some OperationMode.HEAT
    else if n = 4 then some OperationMode.FAN
    else none
  | _ => none

/-- Modelled from the spec: the FanSpeed enum of constants.py is not under
src; the spec only says the value space is a finite set of discrete fan
levels with distinct wire codes, so representative members are used. -/
inductive FanSpeed where
  | AUTO
  | LOW
  | MEDIUM
  | HIGH
  deriving DecidableEq

/-- Modelled from the spec: the wire code of a FanSpeed member. -/
def FanSpeed.value : FanSpeed → Int
  | FanSpeed.AUTO => 0
  | FanSpeed.LOW => 2
  | FanSpeed.MEDIUM => 3
  | FanSpeed.HIGH => 4

/-- Wire-side JSON encoding of a FanSpeed member. -/
def FanSpeed.wire (f : FanSpeed) : Json := Json.num f.value

/-- Modelled from the spec: Python enum lookup FanSpeed(code). -/
def FanSpeed.fromWire (j : Json) : Option FanSpeed :=
  match j with
  | Json.num n =>
    if n = 0 then some FanSpeed.AUTO
    else if n = 2 then some FanSpeed.LOW
    else if n = 3 then some FanSpeed.MEDIUM
    else if n = 4 then some FanSpeed.HIGH
    else none
  | _ => none

/-- Modelled from the spec: the AirSwingUD enum of constants.py is not under
src; the spec only says the value space is a finite set of discrete
vertical swing positions with distinct wire codes. -/
inductive AirSwingUD where
  | AUTO
  | UP
  | MID
  | DOWN
  deriving DecidableEq

/-- Modelled from the spec: the wire code of an AirSwingUD member. -/
def AirSwingUD.value : AirSwingUD → Int
  | AirSwingUD.AUTO => 0
  | AirSwingUD.UP => 1
  | AirSwingUD.MID => 2
  | AirSwingUD.DOWN => 3

/-- Wire-side JSON encoding of an AirSwingUD member. -/
def AirSwingUD.wire (a : AirSwingUD) : Json := Json.num a.value

/-- Modelled from the spec: Python enum lookup AirSwingUD(code). -/
def AirSwingUD.fromWire (j : Json) : Option AirSwingUD :=
  match j with
  | Json.num n =>
    if n = 0 then some AirSwingUD.AUTO
    else if n = 1 then some AirSwingUD.UP
    else if n = 2 then some AirSwingUD.MID
    else if n = 3 then some AirSwingUD.DOWN
    else none
  | _ => none

/-- Values of the decoded ParameterSet: temperatures are copied through as the
JSON value found on the wire, the four enum-backed keys hold enum members. -/
inductive ParamValue where
  | jsonVal (j : Json)
  | power (p : Power)
  | mode (m : OperationMode)
  | fanSpeed (f : FanSpeed)
  | airSwingVertical (a : AirSwingUD)

/-- One pass of the _convert copy-through loop in _read_parameters: when the
wire key is present in the input, append the domain key with the wire value
copied verbatim. -/
def copyThrough (parameters : List (String × Json)) (wireKey domKey : String)
    (v : List (String × ParamValue)) : List (String × ParamValue) :=
  match dictGet parameters wireKey with
  | some j => v ++ [(domKey, ParamValue.jsonVal j)]
  | none => v

/-- One enum-decoding conditional of _read_parameters: when the wire key is
present, decode its value through the enum; an unrecognized code raises
ValueError (no fallback), an absent key contributes nothing. -/
def decodeEnumField (parameters : List (String × Json)) (wireKey domKey : String)
    (dec : Json → Option ParamValue) (v : List (String × ParamValue)) :
    Except PyError (List (String × ParamValue)) :=
  match dictGet parameters wireKey with
  | none => Except.ok v
  | some j =>
    match dec j with
    | some pv => Except.ok (v ++ [(domKey, pv)])
    | none => Except.error (PyError.valueError wireKey)

/-- Session._read_parameters: the decode direction of the parameter codec.
Follows the source order: the three _convert copy-throughs, then the four
enum-backed fields operation_status, operation_mode, wind_volume,
wind_direction. -/
def _read_parameters (parameters : List (String × Json)) :
    Except PyError (List (String × ParamValue)) :=
  let v : List (String × ParamValue) := []
  let v := copyThrough parameters "inside_temp" "temperatureInside" v
  let v := copyThrough parameters "outside_temp" "temperatureOutside" v
  let v := copyThrough parameters "temperature" "temperature" v
  do
    let v ← decodeEnumField parameters "operation_status" "power"
      (fun j => (Power.fromWire j).map ParamValue.power) v
    let v ← decodeEnumField parameters "operation_mode" "mode"
      (fun j => (OperationMode.fromWire j).map ParamValue.mode) v
    let v ← decodeEnumField parameters "wind_volume" "fanSpeed"
      (fun j => (FanSpeed.fromWire j).map ParamValue.fanSpeed) v
    let v ← decodeEnumField parameters "wind_direction" "airSwingVertical"
      (fun j => (AirSwingUD.fromWire j).map ParamValue.airSwingVertical) v
    Except.ok v

/-- The full wire-key to domain-key translation table of _read_parameters:
the three _convert entries plus the four enum-backed fields. -/
def translationTable : List (String × String) :=
  [("inside_temp", "temperatureInside"),
   ("outside_temp", "temperatureOutside"),
   ("temperature", "temperature"),
   ("operation_status", "power"),
   ("operation_mode", "mode"),
   ("wind_volume", "fanSpeed"),
   ("wind_direction", "airSwingVertical")]

/-- The wire keys of the four enum-backed fields. -/
def enumWireKeys : List String :=
  ["operation_status", "operation_mode", "wind_volume", "wind_direction"]

/-- Whether a wire value is inside the known code set of the enum attached to
the given enum-backed wire key (true for any value on non-enum keys). -/
def knownCode (wireKey : String) (j : Json) : Bool :=
  if wireKey = "operation_status" then (Power.fromWire j).isSome
  else if wireKey = "operation_mode" then (OperationMode.fromWire j).isSome
  else if wireKey = "wind_volume" then (FanSpeed.fromWire j).isSome
  else if wireKey = "wind_direction" then (AirSwingUD.fromWire j).isSome
  else true

/-- Python values a caller can pass as a keyword argument to set_device, and
the values set_device itself places into the payload dict. -/
inductive PyValue where
  | bool (b : Bool)
  | int (n : Int)
  | str (s : String)
  | pyNone
  | power (p : Power)
  | mode (m : OperationMode)
  | fanSpeed (f : FanSpeed)
  | airSwingVertical (a : AirSwingUD)

/-- One iteration of the kwargs loop in set_device: the five independent if
statements.  The power, mode, fanSpeed and airSwingVertical settings are
guarded by an isinstance check against their enum class and store the
member's wire code; the temperature setting is stored verbatim with no type
check. -/
def applySetting (payload : List (String × PyValue)) (key : String)
    (value : PyValue) : List (String × PyValue) :=
  let payload :=
    if key = "power" then
      match value with
      | PyValue.power p => dictSet payload "operation_status" (PyValue.int p.value)
      | _ => payload
    else payload
  let payload :=
    if key = "temperature" then dictSet payload "temperature" value else payload
  let payload :=
    if key = "mode" then
      match value with
      | PyValue.mode m => dictSet payload "operation_mode" (PyValue.int m.value)
      | _ => payload
    else payload
  let payload :=
    if key = "fanSpeed" then
      match value with
      | PyValue.fanSpeed f => dictSet payload "wind_volume" (PyValue.int f.value)
      | _ => payload
    else payload
  let payload :=
    if key = "airSwingVertical" then
      match value with
      | PyValue.airSwingVertical a => dictSet payload "wind_direction" (PyValue.int a.value)
      | _ => payload
    else payload
  payload

/-- The payload construction of set_device: start from an empty dict, run the
kwargs loop (kwargs is a Python keyword-argument dict, modelled as an
association list in insertion order), then force the four fixed fields
airquality=False, nanoex=True, silence_control=False, timer_value=0. -/
def build_payload (kwargs : List (String × PyValue)) : List (String × PyValue) :=
  let payload := kwargs.foldl (fun acc kv => applySetting acc kv.1 kv.2) []
  let payload := dictSet payload "airquality" (PyValue.bool false)
  let payload := dictSet payload "nanoex" (PyValue.bool true)
  let payload := dictSet payload "silence_control" (PyValue.bool false)
  dictSet payload "timer_value" (PyValue.int 0)

/-- A device summary as appended to self._devices by get_devices; the three
fields are copied verbatim from the ac_list entry, whatever JSON values
they hold. -/
structure Device where
  id : Json
  name : Json
  model : Json

/-- Extraction of one ac_list entry: device["appliance_id"],
device["nickname"], device["product_code"].  A missing key raises KeyError;
a non-dict entry raises TypeError when subscripted. -/
def parseDevice (d : Json) : Except PyError Device :=
  match d with
  | Json.obj fields =>
    match dictGet fields "appliance_id" with
    | none => Except.error (PyError.keyError "appliance_id")
    | some i =>
      match dictGet fields "nickname" with
      | none => Except.error (PyError.keyError "nickname")
      | some n =>
        match dictGet fields "product_code" with
        | none => Except.error (PyError.keyError "product_code")
        | some m => Except.ok { id := i, name := n, model := m }
  | _ => Except.error PyError.typeError

/-- The for loop of get_devices: appends one summary per entry into the
already-reset self._devices; a failing entry aborts the loop with the
partial list built so far. -/
def devicesLoop (entries : List Json) (acc : List Device) :
    List Device × Option PyError :=
  match entries with
  | [] => (acc, none)
  | d :: rest =>
    match parseDevice d with
    | Except.ok dev => devicesLoop rest (acc ++ [dev])
    | Except.error e => (acc, some e)

/-- The mutable session state the claims observe: the cached device list
self._devices (None until the first get_devices call). -/
structure SessionState where
  _devices : Option (List Device)

/-- Session.login: transport failure raises LoginError wrapping the cause; a
non-2xx status raises ResponseError from inside the try block, which is not
a RequestException and therefore propagates unwrapped (as does the JSON
decode error when the error body is not valid JSON). -/
def login (tr : TransportResult) : Except PyError Unit :=
  match tr with
  | TransportResult.failure => Except.error PyError.loginError
  | TransportResult.success status_code body =>
    if status_code / 100 ≠ 2 then Except.error (raiseResponseError status_code body)
    else Except.ok ()

/-- Session.get_devices: resets self._devices to the empty list first, then
performs the GET.  Transport failure raises the generic Error; non-2xx
raises ResponseError; then json.loads(response.text)["ac_list"] is iterated,
appending one summary per entry directly into self._devices.  Returns the
new state together with the result. -/
def get_devices (st : SessionState) (tr : TransportResult) :
    SessionState × Except PyError (List Device) :=
  let st := { st with _devices := some [] }
  match tr with
  | TransportResult.failure => (st, Except.error PyError.error)
  | TransportResult.success status_code body =>
    if status_code / 100 ≠ 2 then (st, Except.error (raiseResponseError status_code body))
    else
      match json_loads body with
      | Except.error e => (st, Except.error e)
      | Except.ok j =>
        match j with
        | Json.obj fields =>
          match dictGet fields "ac_list" with
          | none => (st, Except.error (PyError.keyError "ac_list"))
          | some (Json.arr entries) =>
            match devicesLoop entries [] with
            | (devs, none) => ({ st with _devices := some devs }, Except.ok devs)
            | (devs, some e) => ({ st with _devices := some devs }, Except.error e)
          | some _ => (st, Except.error PyError.typeError)
        | _ => (st, Except.error PyError.typeError)

/-- Session.get_device: transport failure raises RequestError; a status other
than exactly 200 raises ResponseError; on 200 the body is parsed and run
through _read_parameters, returning the id together with the decoded
ParameterSet.  Only JSON-object status documents are modelled (the device
status endpoint returns an object). -/
def get_device (id : String) (tr : TransportResult) :
    Except PyError (String × List (String × ParamValue)) :=
  match tr with
  | TransportResult.failure => Except.error PyError.requestError
  | TransportResult.success status_code body =>
    if status_code ≠ 200 then Except.error (raiseResponseError status_code body)
    else
      match json_loads body with
      | Except.error e => Except.error e
      | Except.ok j =>
        match j with
        | Json.obj fields =>
          match _read_parameters fields with
          | Except.ok params => Except.ok (id, params)
          | Except.error e => Except.error e
        | _ => Except.error PyError.typeError

/-- Session.dump: same transport and exact-200 contract as get_device, but the
parsed JSON document is returned unmodified with no codec pass. -/
def dump (id : String) (tr : TransportResult) : Except PyError Json :=
  match tr with
  | TransportResult.failure => Except.error PyError.requestError
  | TransportResult.success status_code body =>
    if status_code ≠ 200 then Except.error (raiseResponseError status_code body)
    else json_loads body

/-- Session.set_device: builds the payload from the keyword arguments, PUTs it,
accepts any 2xx status (non-2xx raises ResponseError, transport failure
raises RequestError), parses the response body (discarding it) and returns
True.  The first component is the payload handed to the transport. -/
def set_device (id : String) (kwargs : List (String × PyValue))
    (tr : TransportResult) :
    List (String × PyValue) × Except PyError Bool :=
  let payload := build_payload kwargs
  match tr with
  | TransportResult.failure => (payload, Except.error PyError.requestError)
  | TransportResult.success status_code body =>
    if status_code / 100 ≠ 2 then (payload, Except.error (raiseResponseError status_code body))
    else
      match json_loads body with
      | Except.error e => (payload, Except.error e)
      | Except.ok _ => (payload, Except.ok true)

/-- The isinstance(value, constants.Power) check of the kwargs loop. -/
def isPowerVal : PyValue → Bool
  | PyValue.power _ => true
  | _ => false

/-- The isinstance(value, constants.OperationMode) check of the kwargs loop. -/
def isModeVal : PyValue → Bool
  | PyValue.mode _ => true
  | _ => false

/-- The isinstance(value, constants.FanSpeed) check of the kwargs loop. -/
def isFanSpeedVal : PyValue → Bool
  | PyValue.fanSpeed _ => true
  | _ => false

/-- The isinstance(value, constants.AirSwingUD) check of the kwargs loop. -/
def isAirSwingVal : PyValue → Bool
  | PyValue.airSwingVertical _ => true
  | _ => false

/-- Sequential extraction of every ac_list entry: the all-or-nothing reading
of the device list, used to characterize the successful runs of the
get_devices loop. -/
def parseDevices : List Json → Except PyError (List Device)
  | [] => Except.ok []
  | d :: rest => do
    let dev ← parseDevice d
    let devs ← parseDevices rest
    Except.ok (dev :: devs)

/-- A concrete ac_list entry used to evaluate the device-list mapping. -/
def exampleEntry : Json :=
  Json.obj [("appliance_id", Json.str "a1"), ("nickname", Json.str "ac"),
    ("product_code", Json.str "m1")]

/-- A concrete device-list response body holding one ac_list entry. -/
def exampleListBody : Body := Body.json (Json.obj [("ac_list", Json.arr [exampleEntry])])

/-- The device summary extracted from exampleEntry. -/
def exampleDevice : Device :=
  { id := Json.str "a1", name := Json.str "ac", model := Json.str "m1" }

/-! Helper lemmas about the dict model. -/

theorem bool_or_left_comm (a b c : Bool) : (a || (b || c)) = (b || (a || c)) := by
  cases a <;> cases b <;> cases c <;> rfl

theorem except_bind_ok {ε α β : Type} {a : Except ε α} {f : α → Except ε β} {b : β}
    (h : (a >>= f) = Except.ok b) : ∃ x, a = Except.ok x ∧ f x = Except.ok b := by
  cases a with
  | error e => exact absurd h (by simp [Bind.bind, Except.bind])
  | ok x => exact ⟨x, rfl, by simpa [Bind.bind, Except.bind] using h⟩

theorem dictGet_dictSet_self {α : Type} (d : List (String × α)) (k : String) (v : α) :
    dictGet (dictSet d k v) k = some v := by
  induction d with
  | nil => simp [dictSet, dictGet]
  | cons hd tl ih =>
    obtain ⟨k2, v2⟩ := hd
    by_cases h : k2 = k
    · simp [dictSet, dictGet, h]
    · simp [dictSet, dictGet, h, ih]

theorem dictGet_dictSet_other {α : Type} (d : List (String × α)) (k k2 : String) (v : α)
    (h : k2 ≠ k) : dictGet (dictSet d k v) k2 = dictGet d k2 := by
  induction d with
  | nil => simp [dictSet, dictGet, Ne.symm h]
  | cons hd tl ih =>
    obtain ⟨k3, v3⟩ := hd
    by_cases h3 : k3 = k
    · subst h3
      simp [dictSet, dictGet, Ne.symm h]
    · simp [dictSet, dictGet, h3, ih]

theorem isSome_dictGet_dictSet {α : Type} (d : List (String × α)) (k k2 : String) (v : α) :
    (dictGet (dictSet d k2 v) k).isSome = (decide (k = k2) || (dictGet d k).isSome) := by
  by_cases h : k = k2
  · subst h
    simp [dictGet_dictSet_self]
  · simp [dictGet_dictSet_other _ _ _ _ h, h]

/-- Effect of one iteration of the kwargs loop on the presence of each of the
five caller-controlled wire keys in the payload. -/
theorem applySetting_wire_keys (payload : List (String × PyValue)) (key : String)
    (value : PyValue) :
    ((dictGet (applySetting payload key value) "operation_status").isSome =
      ((decide (key = "power") && isPowerVal value) ||
        (dictGet payload "operation_status").isSome)) ∧
    ((dictGet (applySetting payload key value) "operation_mode").isSome =
      ((decide (key = "mode") && isModeVal value) ||
        (dictGet payload "operation_mode").isSome)) ∧
    ((dictGet (applySetting payload key value) "wind_volume").isSome =
      ((decide (key = "fanSpeed") && isFanSpeedVal value) ||
        (dictGet payload "wind_volume").isSome)) ∧
    ((dictGet (applySetting payload key value) "wind_direction").isSome =
      ((decide (key = "airSwingVertical") && isAirSwingVal value) ||
        (dictGet payload "wind_direction").isSome)) ∧
    ((dictGet (applySetting payload key value) "temperature").isSome =
      (decide (key = "temperature") || (dictGet payload "temperature").isSome)) := by
  by_cases h1 : key = "power"
  · subst h1
    cases value <;>
      simp [applySetting, isSome_dictGet_dictSet, isPowerVal, isModeVal,
        isFanSpeedVal, isAirSwingVal]
  · by_cases h2 : key = "temperature"
    · subst h2
      cases value <;>
        simp [applySetting, isSome_dictGet_dictSet, isPowerVal, isModeVal,
          isFanSpeedVal, isAirSwingVal]
    · by_cases h3 : key = "mode"
      · subst h3
        cases value <;>
          simp [applySetting, isSome_dictGet_dictSet, isPowerVal, isModeVal,
            isFanSpeedVal, isAirSwingVal]
      · by_cases h4 : key = "fanSpeed"
        · subst h4
          cases value <;>
            simp [applySetting, isSome_dictGet_dictSet, isPowerVal, isModeVal,
              isFanSpeedVal, isAirSwingVal]
        · by_cases h5 : key = "airSwingVertical"
          · subst h5
            cases value <;>
              simp [applySetting, isSome_dictGet_dictSet, isPowerVal, isModeVal,
                isFanSpeedVal, isAirSwingVal]
          · simp [applySetting, h1, h2, h3, h4, h5]

/-- Effect of running the whole kwargs loop on the presence of each of the
five caller-controlled wire keys. -/
theorem build_loop_wire_keys (kwargs : List (String × PyValue)) :
    ∀ acc : List (String × PyValue),
    ((dictGet (kwargs.foldl (fun a kv => applySetting a kv.1 kv.2) acc)
        "operation_status").isSome =
      ((dictGet acc "operation_status").isSome ||
        kwargs.any (fun kv => decide (kv.1 = "power") && isPowerVal kv.2))) ∧
    ((dictGet (kwargs.foldl (fun a kv => applySetting a kv.1 kv.2) acc)
        "operation_mode").isSome =
      ((dictGet acc "operation_mode").isSome ||
        kwargs.any (fun kv => decide (kv.1 = "mode") && isModeVal kv.2))) ∧
    ((dictGet (kwargs.foldl (fun a kv => applySetting a kv.1 kv.2) acc)
        "wind_volume").isSome =
      ((dictGet acc "wind_volume").isSome ||
        kwargs.any (fun kv => decide (kv.1 = "fanSpeed") && isFanSpeedVal kv.2))) ∧
    ((dictGet (kwargs.foldl (fun a kv => applySetting a kv.1 kv.2) acc)
        "wind_direction").isSome =
      ((dictGet acc "wind_direction").isSome ||
        kwargs.any (fun kv => decide (kv.1 = "airSwingVertical") && isAirSwingVal kv.2))) ∧
    ((dictGet (kwargs.foldl (fun a kv => applySetting a kv.1 kv.2) acc)
        "temperature").isSome =
      ((dictGet acc "temperature").isSome ||
        kwargs.any (fun kv => decide (kv.1 = "temperature")))) := by
  induction kwargs with
  | nil => intro acc; simp
  | cons kv rest ih =>
    intro acc
    obtain ⟨k, v⟩ := kv
    simp only [List.foldl_cons, List.any_cons]
    obtain ⟨ih1, ih2, ih3, ih4, ih5⟩ := ih (applySetting acc k v)
    obtain ⟨a1, a2, a3, a4, a5⟩ := applySetting_wire_keys acc k v
    refine ⟨?_, ?_, ?_, ?_, ?_⟩
    · rw [ih1, a1, Bool.or_assoc, bool_or_left_comm]
    · rw [ih2, a2, Bool.or_assoc, bool_or_left_comm]
    · rw [ih3, a3, Bool.or_assoc, bool_or_left_comm]
    · rw [ih4, a4, Bool.or_assoc, bool_or_left_comm]
    · rw [ih5, a5, Bool.or_assoc, bool_or_left_comm]

/-- C2 (amended): for the four enum-backed settings the wire key appears in
the built payload if and only if the supplied value has the exact expected
enum type — a wrong-typed value is silently omitted and no error is raised,
since the payload construction is total — but the temperature wire key
appears whenever a temperature setting was supplied at all: its value is
copied verbatim with no type check. -/
theorem c2_settings_type_gate (kwargs : List (String × PyValue)) :
    ((dictGet (build_payload kwargs) "operation_status").isSome =
      kwargs.any (fun kv => decide (kv.1 = "power") && isPowerVal kv.2)) ∧
    ((dictGet (build_payload kwargs) "operation_mode").isSome =
      kwargs.any (fun kv => decide (kv.1 = "mode") && isModeVal kv.2)) ∧
    ((dictGet (build_payload kwargs) "wind_volume").isSome =
      kwargs.any (fun kv => decide (kv.1 = "fanSpeed") && isFanSpeedVal kv.2)) ∧
    ((dictGet (build_payload kwargs) "wind_direction").isSome =
      kwargs.any (fun kv => decide (kv.1 = "airSwingVertical") && isAirSwingVal kv.2)) ∧
    ((dictGet (build_payload kwargs) "temperature").isSome =
      kwargs.any (fun kv => decide (kv.1 = "temperature"))) := by
  obtain ⟨l1, l2, l3, l4, l5⟩ := build_loop_wire_keys kwargs []
  refine ⟨?_, ?_, ?_, ?_, ?_⟩ <;>
    simp only [build_payload, isSome_dictGet_dictSet] <;>
    simp [l1, l2, l3, l4, l5, dictGet]

/-- C1 counterexample: a 201 response makes set_device succeed and return True
rather than fail with ResponseError carrying 201, refuting that set_device
has the same exact-200 contract as get_device. -/
theorem c1_counterexample_set_device_201 :
    (set_device "dev" [] (TransportResult.success 201 (Body.json Json.null))).2 =
      Except.ok true := rfl

/-- C1 (amended): get_device and dump require the status code to be exactly
200 — any other code, including other 2xx codes such as 201, fails with
ResponseError carrying that status code — while set_device only requires a
2xx code: it fails with ResponseError exactly on non-2xx codes and succeeds
on every 2xx code including 201. -/
theorem c1_status_code_contracts (id : String) (s : Nat) (j : Json)
    (kwargs : List (String × PyValue)) :
    (s ≠ 200 → get_device id (TransportResult.success s (Body.json j)) =
      Except.error (PyError.responseError s j)) ∧
    (s ≠ 200 → dump id (TransportResult.success s (Body.json j)) =
      Except.error (PyError.responseError s j)) ∧
    (s / 100 ≠ 2 → (set_device id kwargs (TransportResult.success s (Body.json j))).2 =
      Except.error (PyError.responseError s j)) ∧
    (s / 100 = 2 → (set_device id kwargs (TransportResult.success s (Body.json j))).2 =
      Except.ok true) := by
  refine ⟨?_, ?_, ?_, ?_⟩ <;> intro h <;>
    simp [get_device, dump, set_device, raiseResponseError, ResponseError.construct,
      json_loads, h]

/-- C1 witness: the amended contract evaluated at status 201 (get_device and
dump fail with ResponseError 201, set_device succeeds) and at status 404
(set_device fails with ResponseError 404). -/
theorem c1_status_code_contracts_witness :
    get_device "dev" (TransportResult.success 201 (Body.json Json.null)) =
      Except.error (PyError.responseError 201 Json.null) ∧
    dump "dev" (TransportResult.success 201 (Body.json Json.null)) =
      Except.error (PyError.responseError 201 Json.null) ∧
    (set_device "dev" [] (TransportResult.success 404 (Body.json Json.null))).2 =
      Except.error (PyError.responseError 404 Json.null) ∧
    (set_device "dev" [] (TransportResult.success 201 (Body.json Json.null))).2 =
      Except.ok true :=
  ⟨(c1_status_code_contracts "dev" 201 Json.null []).1 (by decide),
   (c1_status_code_contracts "dev" 201 Json.null []).2.1 (by decide),
   (c1_status_code_contracts "dev" 404 Json.null []).2.2.1 (by decide),
   (c1_status_code_contracts "dev" 201 Json.null []).2.2.2 (by decide)⟩

/-- C2 counterexample: a temperature setting whose value is a string — not a
number — is still written into the payload verbatim, refuting that a
wrong-typed temperature value is omitted from the payload. -/
theorem c2_counterexample_temperature_no_type_check :
    build_payload [("temperature", PyValue.str "hot")] =
      [("temperature", PyValue.str "hot"),
       ("airquality", PyValue.bool false),
       ("nanoex", PyValue.bool true),
       ("silence_control", PyValue.bool false),
       ("timer_value", PyValue.int 0)] := rfl

/-- C5: every payload built by set_device carries the four fixed fields
airquality=false, nanoex=true, silence_control=false, timer_value=0
regardless of caller input, and the scenario set_device(id, power=ON,
temperature=23) produces a payload holding exactly operation_status,
temperature and the four fixed fields, in that order, and no other keys. -/
theorem c5_fixed_payload_fields :
    (∀ kwargs : List (String × PyValue),
      dictGet (build_payload kwargs) "airquality" = some (PyValue.bool false) ∧
      dictGet (build_payload kwargs) "nanoex" = some (PyValue.bool true) ∧
      dictGet (build_payload kwargs) "silence_control" = some (PyValue.bool false) ∧
      dictGet (build_payload kwargs) "timer_value" = some (PyValue.int 0)) ∧
    build_payload [("power", PyValue.power Power.ON), ("temperature", PyValue.int 23)] =
      [("operation_status", PyValue.int Power.ON.value),
       ("temperature", PyValue.int 23),
       ("airquality", PyValue.bool false),
       ("nanoex", PyValue.bool true),
       ("silence_control", PyValue.bool false),
       ("timer_value", PyValue.int 0)] := by
  constructor
  · intro kwargs
    simp only [build_payload]
    refine ⟨?_, ?_, ?_, ?_⟩
    · rw [dictGet_dictSet_other _ _ _ _ (by decide), dictGet_dictSet_other _ _ _ _ (by decide),
        dictGet_dictSet_other _ _ _ _ (by decide), dictGet_dictSet_self]
    · rw [dictGet_dictSet_other _ _ _ _ (by decide), dictGet_dictSet_other _ _ _ _ (by decide),
        dictGet_dictSet_self]
    · rw [dictGet_dictSet_other _ _ _ _ (by decide), dictGet_dictSet_self]
    · rw [dictGet_dictSet_self]
  · rfl

/-- C7 counterexample: constructing a ResponseError around a non-JSON error
body fails — the constructor body runs json.loads on the text, so the
caller receives a JSON decode error instead of a ResponseError. -/
theorem c7_counterexample_construct_non_json_body :
    ResponseError.construct 500 (Body.raw "internal error, not json") =
      Except.error PyError.jsonDecodeError ∧
    isResponseError PyError.jsonDecodeError = false := ⟨rfl, rfl⟩

/-- C7 (amended): a raised ResponseError carries the exact status code and the
response body parsed as JSON; however the construction only succeeds when
the body is valid JSON — on a non-JSON body the constructor itself raises a
JSON decode error, and that decode error is what propagates to the caller
instead of a ResponseError. -/
theorem c7_response_error_contents (s : Nat) (j : Json) (t : String) :
    ResponseError.construct s (Body.json j) =
      Except.ok { status_code := s, text := j } ∧
    raiseResponseError s (Body.json j) = PyError.responseError s j ∧
    ResponseError.construct s (Body.raw t) = Except.error PyError.jsonDecodeError ∧
    raiseResponseError s (Body.raw t) = PyError.jsonDecodeError :=
  ⟨rfl, rfl, rfl, rfl⟩

/-- C8 counterexample: a 401 response to login whose body is not valid JSON
propagates as the JSON decode error raised inside the ResponseError
constructor, not as a ResponseError, refuting that every non-2xx status
during login propagates as ResponseError. -/
theorem c8_counterexample_login_non_json_error_body :
    login (TransportResult.success 401 (Body.raw "unauthorized page")) =
      Except.error PyError.jsonDecodeError ∧
    isResponseError PyError.jsonDecodeError = false := ⟨rfl, rfl⟩

/-- C8 (amended): transport failures are classified per operation — login
fails with LoginError, get_devices with the generic Error, and get_device,
dump and set_device with RequestError — and a non-2xx status during login
whose body is valid JSON propagates as ResponseError, not LoginError (with
a non-JSON body the JSON decode error propagates instead). -/
theorem c8_transport_failure_classification (id : String) (st : SessionState)
    (kwargs : List (String × PyValue)) (s : Nat) (j : Json) :
    login TransportResult.failure = Except.error PyError.loginError ∧
    (get_devices st TransportResult.failure).2 = Except.error PyError.error ∧
    get_device id TransportResult.failure = Except.error PyError.requestError ∧
    dump id TransportResult.failure = Except.error PyError.requestError ∧
    (set_device id kwargs TransportResult.failure).2 =
      Except.error PyError.requestError ∧
    (s / 100 ≠ 2 → login (TransportResult.success s (Body.json j)) =
      Except.error (PyError.responseError s j)) := by
  refine ⟨rfl, rfl, rfl, rfl, rfl, ?_⟩
  intro h
  simp [login, h, raiseResponseError, ResponseError.construct, json_loads]

/-- C8 witness: the classification evaluated on a transport failure during
login and on a 401 login response with a JSON body. -/
theorem c8_transport_failure_classification_witness :
    login TransportResult.failure = Except.error PyError.loginError ∧
    login (TransportResult.success 401 (Body.json (Json.str "denied"))) =
      Except.error (PyError.responseError 401 (Json.str "denied")) :=
  ⟨(c8_transport_failure_classification "dev" ⟨none⟩ [] 401 (Json.str "denied")).1,
   (c8_transport_failure_classification "dev" ⟨none⟩ [] 401
      (Json.str "denied")).2.2.2.2.2 (by decide)⟩

/-- C3: the parameter codec round-trips on all four enum-backed value spaces:
decoding the wire code produced by encoding a domain value yields the value
back, and encoding the domain value obtained by decoding a known wire code
yields the same code back. -/
theorem c3_codec_round_trip :
    (∀ p : Power, Power.fromWire p.wire = some p) ∧
    (∀ m : OperationMode, OperationMode.fromWire m.wire = some m) ∧
    (∀ f : FanSpeed, FanSpeed.fromWire f.wire = some f) ∧
    (∀ a : AirSwingUD, AirSwingUD.fromWire a.wire = some a) ∧
    (∀ (j : Json) (p : Power), Power.fromWire j = some p → p.wire = j) ∧
    (∀ (j : Json) (m : OperationMode), OperationMode.fromWire j = some m → m.wire = j) ∧
    (∀ (j : Json) (f : FanSpeed), FanSpeed.fromWire j = some f → f.wire = j) ∧
    (∀ (j : Json) (a : AirSwingUD), AirSwingUD.fromWire j = some a → a.wire = j) := by
  refine ⟨fun p => by cases p <;> rfl, fun m => by cases m <;> rfl,
    fun f => by cases f <;> rfl, fun a => by cases a <;> rfl, ?_, ?_, ?_, ?_⟩
  · intro j p h
    cases j with
    | num n =>
      simp only [Power.fromWire] at h
      split_ifs at h with h1 h2
      · cases h; simp [Power.wire, Power.value, h1]
      · cases h; simp [Power.wire, Power.value, h2]
    | null => simp [Power.fromWire] at h
    | bool b => simp [Power.fromWire] at h
    | str s => simp [Power.fromWire] at h
    | arr es => simp [Power.fromWire] at h
    | obj fs => simp [Power.fromWire] at h
  · intro j m h
    cases j with
    | num n =>
      simp only [OperationMode.fromWire] at h
      split_ifs at h with h1 h2 h3 h4 h5
      · cases h; simp [OperationMode.wire, OperationMode.value, h1]
      · cases h; simp [OperationMode.wire, OperationMode.value, h2]
      · cases h; simp [OperationMode.wire, OperationMode.value, h3]
      · cases h; simp [OperationMode.wire, OperationMode.value, h4]
      · cases h; simp [OperationMode.wire, OperationMode.value, h5]
    | null => simp [OperationMode.fromWire] at h
    | bool b => simp [OperationMode.fromWire] at h
    | str s => simp [OperationMode.fromWire] at h
    | arr es => simp [OperationMode.fromWire] at h
    | obj fs => simp [OperationMode.fromWire] at h
  · intro j f h
    cases j with
    | num n =>
      simp only [FanSpeed.fromWire] at h
      split_ifs at h with h1 h2 h3 h4
      · cases h; simp [FanSpeed.wire, FanSpeed.value, h1]
      · cases h; simp [FanSpeed.wire, FanSpeed.value, h2]
      · cases h; simp [FanSpeed.wire, FanSpeed.value, h3]
      · cases h; simp [FanSpeed.wire, FanSpeed.value, h4]
    | null => simp [FanSpeed.fromWire] at h
    | bool b => simp [FanSpeed.fromWire] at h
    | str s => simp [FanSpeed.fromWire] at h
    | arr es => simp [FanSpeed.fromWire] at h
    | obj fs => simp [FanSpeed.fromWire] at h
  · intro j a h
    cases j with
    | num n =>
      simp only [AirSwingUD.fromWire] at h
      split_ifs at h with h1 h2 h3 h4
      · cases h; simp [AirSwingUD.wire, AirSwingUD.value, h1]
      · cases h; simp [AirSwingUD.wire, AirSwingUD.value, h2]
      · cases h; simp [AirSwingUD.wire, AirSwingUD.value, h3]
      · cases h; simp [AirSwingUD.wire, AirSwingUD.value, h4]
    | null => simp [AirSwingUD.fromWire] at h
    | bool b => simp [AirSwingUD.fromWire] at h
    | str s => simp [AirSwingUD.fromWire] at h
    | arr es => simp [AirSwingUD.fromWire] at h
    | obj fs => simp [AirSwingUD.fromWire] at h

/-- C3 witness: both round-trip directions evaluated on one member of each
enum and on one known wire code of each enum. -/
theorem c3_codec_round_trip_witness :
    Power.fromWire Power.ON.wire = some Power.ON ∧
    Power.OFF.wire = Json.num 0 ∧
    OperationMode.COOL.wire = Json.num 2 ∧
    FanSpeed.LOW.wire = Json.num 2 ∧
    AirSwingUD.DOWN.wire = Json.num 3 :=
  ⟨c3_codec_round_trip.1 Power.ON,
   c3_codec_round_trip.2.2.2.2.1 (Json.num 0) Power.OFF rfl,
   c3_codec_round_trip.2.2.2.2.2.1 (Json.num 2) OperationMode.COOL rfl,
   c3_codec_round_trip.2.2.2.2.2.2.1 (Json.num 2) FanSpeed.LOW rfl,
   c3_codec_round_trip.2.2.2.2.2.2.2 (Json.num 3) AirSwingUD.DOWN rfl⟩

theorem mem_copyThrough_keys (parameters : List (String × Json))
    (wireKey domKey k : String) (v : List (String × ParamValue))
    (h : k ∈ (copyThrough parameters wireKey domKey v).map Prod.fst) :
    k ∈ v.map Prod.fst ∨ (k = domKey ∧ (dictGet parameters wireKey).isSome) := by
  unfold copyThrough at h
  split at h
  · rename_i j hg
    simp only [List.map_append, List.mem_append] at h
    rcases h with h | h
    · exact Or.inl h
    · simp at h
      exact Or.inr ⟨h, by rw [hg]; rfl⟩
  · exact Or.inl h

theorem mem_decodeEnumField_keys (parameters : List (String × Json))
    (wireKey domKey k : String) (dec : Json → Option ParamValue)
    (v out : List (String × ParamValue))
    (hout : decodeEnumField parameters wireKey domKey dec v = Except.ok out)
    (h : k ∈ out.map Prod.fst) :
    k ∈ v.map Prod.fst ∨ (k = domKey ∧ (dictGet parameters wireKey).isSome) := by
  unfold decodeEnumField at hout
  split at hout
  · cases hout
    exact Or.inl h
  · rename_i j hg
    split at hout
    · rename_i pv hd
      cases hout
      simp only [List.map_append, List.mem_append] at h
      rcases h with h | h
      · exact Or.inl h
      · simp at h
        exact Or.inr ⟨h, by rw [hg]; rfl⟩
    · cases hout

/-- C4: a domain key is present in the ParameterSet produced by
_read_parameters only if a wire key translating to it was present in the
input document — the output key set is a subset of the translation-table
image of the present input keys, so absent wire keys never produce a
default value. -/
theorem c4_no_default_values (parameters : List (String × Json))
    (out : List (String × ParamValue))
    (hout : _read_parameters parameters = Except.ok out) :
    ∀ dk, dk ∈ out.map Prod.fst →
      ∃ wk, (wk, dk) ∈ translationTable ∧ (dictGet parameters wk).isSome := by
  intro dk hdk
  simp only [_read_parameters] at hout
  obtain ⟨v1, h1, hout⟩ := except_bind_ok hout
  obtain ⟨v2, h2, hout⟩ := except_bind_ok hout
  obtain ⟨v3, h3, hout⟩ := except_bind_ok hout
  obtain ⟨v4, h4, hout⟩ := except_bind_ok hout
  cases hout
  rcases mem_decodeEnumField_keys _ _ _ _ _ _ _ h4 hdk with hdk | ⟨rfl, hs⟩
  · rcases mem_decodeEnumField_keys _ _ _ _ _ _ _ h3 hdk with hdk | ⟨rfl, hs⟩
    · rcases mem_decodeEnumField_keys _ _ _ _ _ _ _ h2 hdk with hdk | ⟨rfl, hs⟩
      · rcases mem_decodeEnumField_keys _ _ _ _ _ _ _ h1 hdk with hdk | ⟨rfl, hs⟩
        · rcases mem_copyThrough_keys _ _ _ _ _ hdk with hdk | ⟨rfl, hs⟩
          · rcases mem_copyThrough_keys _ _ _ _ _ hdk with hdk | ⟨rfl, hs⟩
            · rcases mem_copyThrough_keys _ _ _ _ _ hdk with hdk | ⟨rfl, hs⟩
              · simp at hdk
              · exact ⟨"inside_temp", by simp [translationTable], hs⟩
            · exact ⟨"outside_temp", by simp [translationTable], hs⟩
          · exact ⟨"temperature", by simp [translationTable], hs⟩
        · exact ⟨"operation_status", by simp [translationTable], hs⟩
      · exact ⟨"operation_mode", by simp [translationTable], hs⟩
    · exact ⟨"wind_volume", by simp [translationTable], hs⟩
  · exact ⟨"wind_direction", by simp [translationTable], hs⟩

/-- C4 witness: the subset property applied to a concrete partial document
holding only a temperature and a power field. -/
theorem c4_no_default_values_witness :
    _read_parameters [("temperature", Json.num 23), ("operation_status", Json.num 1)] =
      Except.ok [("temperature", ParamValue.jsonVal (Json.num 23)),
        ("power", ParamValue.power Power.ON)] ∧
    (∀ dk, dk ∈ ([("temperature", ParamValue.jsonVal (Json.num 23)),
        ("power", ParamValue.power Power.ON)]).map Prod.fst →
      ∃ wk, (wk, dk) ∈ translationTable ∧
        (dictGet [("temperature", Json.num 23), ("operation_status", Json.num 1)]
          wk).isSome) :=
  ⟨rfl, c4_no_default_values _ _ rfl⟩

theorem except_bind_error_eq {ε α β : Type} (e : ε) (f : α → Except ε β) :
    ((Except.error e : Except ε α) >>= f) = Except.error e := rfl

theorem except_bind_ok_apply {ε α β : Type} (x : α) (f : α → Except ε β) :
    ((Except.ok x : Except ε α) >>= f) = f x := rfl

theorem decodeEnumField_error_shape (parameters : List (String × Json))
    (wireKey domKey : String) (dec : Json → Option ParamValue)
    (v : List (String × ParamValue)) (e : PyError)
    (h : decodeEnumField parameters wireKey domKey dec v = Except.error e) :
    e = PyError.valueError wireKey := by
  unfold decodeEnumField at h
  split at h
  · cases h
  · split at h
    · cases h
    · cases h
      rfl

theorem decodeEnumField_bad (parameters : List (String × Json))
    (wireKey domKey : String) (dec : Json → Option ParamValue)
    (v : List (String × ParamValue)) (j : Json)
    (hg : dictGet parameters wireKey = some j) (hd : dec j = none) :
    decodeEnumField parameters wireKey domKey dec v =
      Except.error (PyError.valueError wireKey) := by
  unfold decodeEnumField
  split
  · rename_i hg2
    rw [hg] at hg2
    cases hg2
  · rename_i j2 hg2
    rw [hg] at hg2
    cases hg2
    rw [hd]

/-- C6: a wire document holding an enum-backed field whose value lies outside
the known code set of that field's enum makes _read_parameters fail with a
ValueError naming one of the enum-backed wire keys; no fallback or default
value is substituted. -/
theorem c6_unknown_code_fails (parameters : List (String × Json)) (wk : String)
    (j : Json) (hmem : wk ∈ enumWireKeys) (hg : dictGet parameters wk = some j)
    (hbad : knownCode wk j = false) :
    ∃ wk2, wk2 ∈ enumWireKeys ∧
      _read_parameters parameters = Except.error (PyError.valueError wk2) := by
  simp only [enumWireKeys, List.mem_cons, List.not_mem_nil, or_false] at hmem
  rcases hmem with rfl | rfl | rfl | rfl
  · cases hfw : Power.fromWire j with
    | some p => simp [knownCode, hfw] at hbad
    | none =>
      refine ⟨"operation_status", by simp [enumWireKeys], ?_⟩
      simp only [_read_parameters]
      rw [decodeEnumField_bad _ _ _ _ _ _ hg (by simp [hfw]), except_bind_error_eq]
  · cases hfw : OperationMode.fromWire j with
    | some m => simp [knownCode, hfw] at hbad
    | none =>
      cases h1 : decodeEnumField parameters "operation_status" "power"
          (fun j => (Power.fromWire j).map ParamValue.power)
          (copyThrough parameters "temperature" "temperature"
            (copyThrough parameters "outside_temp" "temperatureOutside"
              (copyThrough parameters "inside_temp" "temperatureInside" []))) with
      | error e =>
        refine ⟨"operation_status", by simp [enumWireKeys], ?_⟩
        simp only [_read_parameters]
        rw [h1, except_bind_error_eq, decodeEnumField_error_shape _ _ _ _ _ _ h1]
      | ok v1 =>
        refine ⟨"operation_mode", by simp [enumWireKeys], ?_⟩
        simp only [_read_parameters]
        rw [h1, except_bind_ok_apply,
          decodeEnumField_bad _ _ _ _ _ _ hg (by simp [hfw]), except_bind_error_eq]
  · cases hfw : FanSpeed.fromWire j with
    | some f => simp [knownCode, hfw] at hbad
    | none =>
      cases h1 : decodeEnumField parameters "operation_status" "power"
          (fun j => (Power.fromWire j).map ParamValue.power)
          (copyThrough parameters "temperature" "temperature"
            (copyThrough parameters "outside_temp" "temperatureOutside"
              (copyThrough parameters "inside_temp" "temperatureInside" []))) with
      | error e =>
        refine ⟨"operation_status", by simp [enumWireKeys], ?_⟩
        simp only [_read_parameters]
        rw [h1, except_bind_error_eq, decodeEnumField_error_shape _ _ _ _ _ _ h1]
      | ok v1 =>
        cases h2 : decodeEnumField parameters "operation_mode" "mode"
            (fun j => (OperationMode.fromWire j).map ParamValue.mode) v1 with
        | error e =>
          refine ⟨"operation_mode", by simp [enumWireKeys], ?_⟩
          simp only [_read_parameters]
          rw [h1, except_bind_ok_apply, h2, except_bind_error_eq,
            decodeEnumField_error_shape _ _ _ _ _ _ h2]
        | ok v2 =>
          refine ⟨"wind_volume", by simp [enumWireKeys], ?_⟩
          simp only [_read_parameters]
          rw [h1, except_bind_ok_apply, h2, except_bind_ok_apply,
            decodeEnumField_bad _ _ _ _ _ _ hg (by simp [hfw]), except_bind_error_eq]
  · cases hfw : AirSwingUD.fromWire j with
    | some a => simp [knownCode, hfw] at hbad
    | none =>
      cases h1 : decodeEnumField parameters "operation_status" "power"
          (fun j => (Power.fromWire j).map ParamValue.power)
          (copyThrough parameters "temperature" "temperature"
            (copyThrough parameters "outside_temp" "temperatureOutside"
              (copyThrough parameters "inside_temp" "temperatureInside" []))) with
      | error e =>
        refine ⟨"operation_status", by simp [enumWireKeys], ?_⟩
        simp only [_read_parameters]
        rw [h1, except_bind_error_eq, decodeEnumField_error_shape _ _ _ _ _ _ h1]
      | ok v1 =>
        cases h2 : decodeEnumField parameters "operation_mode" "mode"
            (fun j => (OperationMode.fromWire j).map ParamValue.mode) v1 with
        | error e =>
          refine ⟨"operation_mode", by simp [enumWireKeys], ?_⟩
          simp only [_read_parameters]
          rw [h1, except_bind_ok_apply, h2, except_bind_error_eq,
            decodeEnumField_error_shape _ _ _ _ _ _ h2]
        | ok v2 =>
          cases h3 : decodeEnumField parameters "wind_volume" "fanSpeed"
              (fun j => (FanSpeed.fromWire j).map ParamValue.fanSpeed) v2 with
          | error e =>
            refine ⟨"wind_volume", by simp [enumWireKeys], ?_⟩
            simp only [_read_parameters]
            rw [h1, except_bind_ok_apply, h2, except_bind_ok_apply, h3,
              except_bind_error_eq, decodeEnumField_error_shape _ _ _ _ _ _ h3]
          | ok v3 =>
            refine ⟨"wind_direction", by simp [enumWireKeys], ?_⟩
            simp only [_read_parameters]
            rw [h1, except_bind_ok_apply, h2, except_bind_ok_apply, h3,
              except_bind_ok_apply,
              decodeEnumField_bad _ _ _ _ _ _ hg (by simp [hfw]), except_bind_error_eq]

/-- C6 witness: the decode failure evaluated on the document
operation_mode = 999, a code outside the OperationMode value space. -/
theorem c6_unknown_code_fails_witness :
    ("operation_mode" ∈ enumWireKeys ∧
      dictGet [("operation_mode", Json.num 999)] "operation_mode" =
        some (Json.num 999) ∧
      knownCode "operation_mode" (Json.num 999) = false) ∧
    (∃ wk2, wk2 ∈ enumWireKeys ∧
      _read_parameters [("operation_mode", Json.num 999)] =
        Except.error (PyError.valueError wk2)) :=
  ⟨⟨by simp [enumWireKeys], rfl, rfl⟩,
   c6_unknown_code_fails [("operation_mode", Json.num 999)] "operation_mode"
     (Json.num 999) (by simp [enumWireKeys]) rfl rfl⟩

theorem json_loads_ok_inv (b : Body) (j : Json) (h : json_loads b = Except.ok j) :
    b = Body.json j := by
  cases b with
  | json j2 =>
    simp only [json_loads] at h
    cases h
    rfl
  | raw s => simp [json_loads] at h

theorem parseDevices_ok_pointwise (entries : List Json) (devs : List Device)
    (h : parseDevices entries = Except.ok devs) :
    devs.length = entries.length ∧
      ∀ i (h1 : i < entries.length) (h2 : i < devs.length),
        parseDevice (entries.get ⟨i, h1⟩) = Except.ok (devs.get ⟨i, h2⟩) := by
  induction entries generalizing devs with
  | nil =>
    simp only [parseDevices] at h
    cases h
    exact ⟨rfl, fun i h1 h2 => absurd h1 (by simp)⟩
  | cons d rest ih =>
    simp only [parseDevices] at h
    obtain ⟨dev, hd, h⟩ := except_bind_ok h
    obtain ⟨devs2, hds, h⟩ := except_bind_ok h
    cases h
    obtain ⟨hlen, hpt⟩ := ih devs2 hds
    refine ⟨by simp [hlen], ?_⟩
    intro i h1 h2
    cases i with
    | zero => exact hd
    | succ n =>
      exact hpt n (by simp only [List.length_cons] at h1; omega)
        (by simp only [List.length_cons] at h2; omega)

theorem devicesLoop_ok (entries : List Json) (acc res : List Device)
    (h : devicesLoop entries acc = (res, none)) :
    ∃ devs, parseDevices entries = Except.ok devs ∧ res = acc ++ devs := by
  induction entries generalizing acc with
  | nil =>
    simp only [devicesLoop] at h
    injection h with h1 h2
    subst h1
    exact ⟨[], rfl, by simp⟩
  | cons d rest ih =>
    simp only [devicesLoop] at h
    split at h
    · rename_i dev hd
      obtain ⟨devs, hp, hr⟩ := ih (acc ++ [dev]) h
      refine ⟨dev :: devs, ?_, by simp [hr]⟩
      simp only [parseDevices, hd, hp, except_bind_ok_apply]
    · rename_i e hd
      simp at h

/-- C9: whenever get_devices succeeds, the returned list holds exactly one
device summary per ac_list entry of the response body, in input order, and
each summary's id, name and model fields are the verbatim appliance_id,
nickname and product_code fields of its entry. -/
theorem c9_get_devices_mapping (st : SessionState) (tr : TransportResult)
    (devs : List Device) (hok : (get_devices st tr).2 = Except.ok devs) :
    (∃ s fields entries,
      tr = TransportResult.success s (Body.json (Json.obj fields)) ∧
      dictGet fields "ac_list" = some (Json.arr entries) ∧
      devs.length = entries.length ∧
      ∀ i (h1 : i < entries.length) (h2 : i < devs.length),
        parseDevice (entries.get ⟨i, h1⟩) = Except.ok (devs.get ⟨i, h2⟩)) ∧
    (∀ (e : Json) (dev : Device), parseDevice e = Except.ok dev →
      ∃ o, e = Json.obj o ∧
        dictGet o "appliance_id" = some dev.id ∧
        dictGet o "nickname" = some dev.name ∧
        dictGet o "product_code" = some dev.model) := by
  constructor
  · cases tr with
    | failure => exact absurd hok (by simp [get_devices])
    | success s body =>
      by_cases hs : s / 100 ≠ 2
      · exact absurd hok (by simp [get_devices, hs])
      · cases body with
        | raw t => exact absurd hok (by simp [get_devices, hs, json_loads])
        | json j =>
          cases j with
          | obj fields =>
            cases hg : dictGet fields "ac_list" with
            | none => exact absurd hok (by simp [get_devices, hs, json_loads, hg])
            | some aj =>
              cases aj with
              | arr entries =>
                cases hl : devicesLoop entries [] with
                | mk res err =>
                  cases err with
                  | none =>
                    have hdevs : res = devs := by
                      simpa [get_devices, hs, json_loads, hg, hl] using hok
                    obtain ⟨devs2, hp, hr⟩ := devicesLoop_ok entries [] res hl
                    have hd2 : devs2 = devs := by
                      rw [← hdevs, hr]
                      simp
                    rw [hd2] at hp
                    obtain ⟨hlen, hpt⟩ := parseDevices_ok_pointwise entries devs hp
                    exact ⟨s, fields, entries, rfl, hg, hlen, hpt⟩
                  | some e =>
                    exact absurd hok (by simp [get_devices, hs, json_loads, hg, hl])
              | null => exact absurd hok (by simp [get_devices, hs, json_loads, hg])
              | bool b => exact absurd hok (by simp [get_devices, hs, json_loads, hg])
              | num n => exact absurd hok (by simp [get_devices, hs, json_loads, hg])
              | str t => exact absurd hok (by simp [get_devices, hs, json_loads, hg])
              | obj o2 => exact absurd hok (by simp [get_devices, hs, json_loads, hg])
          | null => exact absurd hok (by simp [get_devices, hs, json_loads])
          | bool b => exact absurd hok (by simp [get_devices, hs, json_loads])
          | num n => exact absurd hok (by simp [get_devices, hs, json_loads])
          | str t => exact absurd hok (by simp [get_devices, hs, json_loads])
          | arr es => exact absurd hok (by simp [get_devices, hs, json_loads])
  · intro e dev hp
    cases e with
    | obj o =>
      refine ⟨o, rfl, ?_⟩
      simp only [parseDevice] at hp
      split at hp
      · cases hp
      · rename_i i hg1
        split at hp
        · cases hp
        · rename_i n hg2
          split at hp
          · cases hp
          · rename_i m hg3
            cases hp
            exact ⟨hg1, hg2, hg3⟩
    | null => simp [parseDevice] at hp
    | bool b => simp [parseDevice] at hp
    | num n => simp [parseDevice] at hp
    | str t => simp [parseDevice] at hp
    | arr es => simp [parseDevice] at hp

/-- C9 witness: the mapping property applied to a session with no cached list
receiving a one-entry ac_list response. -/
theorem c9_get_devices_mapping_witness :
    (get_devices { _devices := none }
        (TransportResult.success 200 exampleListBody)).2 = Except.ok [exampleDevice] ∧
    ((∃ s fields entries,
        TransportResult.success 200 exampleListBody =
          TransportResult.success s (Body.json (Json.obj fields)) ∧
        dictGet fields "ac_list" = some (Json.arr entries) ∧
        ([exampleDevice]).length = entries.length ∧
        ∀ i (h1 : i < entries.length) (h2 : i < ([exampleDevice]).length),
          parseDevice (entries.get ⟨i, h1⟩) =
            Except.ok (([exampleDevice]).get ⟨i, h2⟩)) ∧
      (∀ (e : Json) (dev : Device), parseDevice e = Except.ok dev →
        ∃ o, e = Json.obj o ∧
          dictGet o "appliance_id" = some dev.id ∧
          dictGet o "nickname" = some dev.name ∧
          dictGet o "product_code" = some dev.model)) :=
  ⟨rfl, c9_get_devices_mapping { _devices := none }
    (TransportResult.success 200 exampleListBody) [exampleDevice] rfl⟩

/-- C10: get_devices resets the cached device list to the empty list before
issuing the network call, so on each of its failure modes — transport
failure, non-2xx status, and missing ac_list field — the previously cached
list has already been discarded and the cache is left empty while the call
fails; the operation is not atomic on error. -/
theorem c10_get_devices_cache_reset (st : SessionState) (s : Nat) (body : Body)
    (fields : List (String × Json)) :
    ((get_devices st TransportResult.failure).1._devices = some [] ∧
      (get_devices st TransportResult.failure).2 = Except.error PyError.error) ∧
    (s / 100 ≠ 2 →
      (get_devices st (TransportResult.success s body)).1._devices = some [] ∧
      (get_devices st (TransportResult.success s body)).2 =
        Except.error (raiseResponseError s body)) ∧
    (s / 100 = 2 → dictGet fields "ac_list" = none →
      get_devices st (TransportResult.success s (Body.json (Json.obj fields))) =
        ({ _devices := some [] }, Except.error (PyError.keyError "ac_list"))) := by
  refine ⟨⟨rfl, rfl⟩, ?_, ?_⟩
  · intro hs
    exact ⟨by simp [get_devices, hs], by simp [get_devices, hs]⟩
  · intro hs hg
    simp [get_devices, hs, json_loads, hg]

/-- C10 witness: the cache reset observed on a 500 response arriving while a
device was cached, and on a 2xx response lacking the ac_list field. -/
theorem c10_get_devices_cache_reset_witness :
    (get_devices { _devices := some [exampleDevice] }
        (TransportResult.success 500 (Body.json Json.null))).1._devices = some [] ∧
    get_devices { _devices := some [exampleDevice] }
        (TransportResult.success 200 (Body.json (Json.obj []))) =
      ({ _devices := some [] }, Except.error (PyError.keyError "ac_list")) :=
  ⟨((c10_get_devices_cache_reset { _devices := some [exampleDevice] } 500
      (Body.json Json.null) []).2.1 (by decide)).1,
   (c10_get_devices_cache_reset { _devices := some [exampleDevice] } 200
      (Body.json Json.null) []).2.2 (by decide) rfl⟩

end PanasonicEolia
